import Mathlib

/-!
Verification development for the SDV modpack-info script
(src/sdv-modpackinfo.py). The script scans a Mods directory tree for
manifest.json descriptors, tolerantly parses them, normalizes version
fields, batches an enrichment request, and resolves a download URL per mod.

The embedding below models the Python values and exceptions shallowly:
Python values become the inductive PyVal, raised exceptions become the
error side of Except PyError, and diagnostics printed to stderr are
collected in lists of Diag. All definitions are executable and structural
so that concrete runs reduce by rfl.
-/

/-- Shallow model of the Python values the script manipulates
(JSON-decodable values plus the containers the script builds). -/
inductive PyVal where
  | str (s : String)
  | int (n : Int)
  | bool (b : Bool)
  | null
  | list (xs : List PyVal)
  | dict (kvs : List (String × PyVal))

/-- Python exceptions raised by the modelled code paths. `outOfFuel` is an
artifact of the fuelled encodings below and is never reached when fuel
exceeds the input size. -/
inductive PyError where
  | keyError (k : String)
  | typeError
  | unboundLocalError (name : String)
  | valueError
  | indexError
  | notADirectoryError
  | jsonDecodeError
  | outOfFuel

/-- Diagnostics the script prints to stderr, abbreviated to the mod or
path name they mention. -/
inductive Diag where
  | notDirectory (path : String)
  | parseFailed (path : String)
  | noMods (path : String)
  | missingUpdateKey (name : String)
  | invalidUpdateKey (name : String) (key : String)
  | unrecognizedUpdateKey (name : String) (key : String)

def slashChar : Char := Char.ofNat 47

def newlineChar : Char := Char.ofNat 10

def quoteChar : Char := Char.ofNat 34

def backslashChar : Char := Char.ofNat 92

def commaChar : Char := Char.ofNat 44

def colonChar : Char := Char.ofNat 58

def lbrackChar : Char := Char.ofNat 91

def rbrackChar : Char := Char.ofNat 93

def lbraceChar : Char := Char.ofNat 123

def rbraceChar : Char := Char.ofNat 125

def spaceChar : Char := Char.ofNat 32

def tabChar : Char := Char.ofNat 9

def crChar : Char := Char.ofNat 13

def formfeedChar : Char := Char.ofNat 12

def vtabChar : Char := Char.ofNat 11

def dotChar : Char := Char.ofNat 46

def minusChar : Char := Char.ofNat 45

def lowerEChar : Char := Char.ofNat 101

def upperEChar : Char := Char.ofNat 69

/-- Does the character class of Python's regex `\s` (ASCII part) match? -/
def is_py_space (c : Char) : Bool :=
  c == spaceChar || c == tabChar || c == newlineChar || c == crChar
    || c == formfeedChar || c == vtabChar

/-- Does `hay` start with `needle`? -/
def starts_with : List Char → List Char → Bool
  | [], _ => true
  | _ :: _, [] => false
  | n :: ns, h :: hs => n == h && starts_with ns hs

/-- Does `needle` occur as a contiguous sublist of `hay`? Models Python's
substring containment test `needle in hay` for strings. -/
def has_sub (needle : List Char) : List Char → Bool
  | [] => starts_with needle []
  | c :: rest => starts_with needle (c :: rest) || has_sub needle rest

/-- Models CPython `x is ""`: the empty string is interned, so the identity
test with the literal `""` holds exactly for the empty string value and for
no non-string value (line 125 of the script). -/
def is_empty_str : PyVal → Bool
  | .str s => s == ("")
  | _ => false

/-- Models Python `needle == element` inside a `needle in list` test:
equality with a string is false for every non-string element. -/
def str_eq_val (needle : String) : PyVal → Bool
  | .str s => s == needle
  | _ => false

/-- Models the Python membership test `needle in v` for the value shapes
the script encounters: key containment for dicts, substring containment
for strings, element equality for lists; iteration over other values
raises TypeError. -/
def py_contains (needle : String) (v : PyVal) : Except PyError Bool :=
  match v with
  | .dict kvs => .ok (kvs.any (fun kv => kv.1 == needle))
  | .str s => .ok (has_sub needle.data s.data)
  | .list xs => .ok (xs.any (str_eq_val needle))
  | _ => .error (.typeError)

/-- Models the Python subscript `v[k]` with a string key: dict lookup
raising KeyError when the key is absent; subscripting a string, list or
scalar with a string key raises TypeError. -/
def py_getitem (v : PyVal) (k : String) : Except PyError PyVal :=
  match v with
  | .dict kvs =>
    match kvs.find? (fun kv => kv.1 == k) with
    | some kv => .ok kv.2
    | none => .error (.keyError k)
  | _ => .error (.typeError)

/-- Models dict assignment `d[k] = v`: replaces the value in place when the
key exists, appends otherwise (CPython insertion-order semantics). -/
def dict_set_kvs : List (String × PyVal) → String → PyVal → List (String × PyVal)
  | [], k, v => [(k, v)]
  | kv0 :: rest, k, v =>
    if kv0.1 == k then (kv0.1, v) :: rest else kv0 :: dict_set_kvs rest k v

/-- Dict assignment lifted to PyVal; assignment into a non-dict does not
occur on the modelled paths. -/
def dict_set (d : PyVal) (k : String) (v : PyVal) : PyVal :=
  match d with
  | .dict kvs => .dict (dict_set_kvs kvs k v)
  | other => other

/-- Models Python `a + b` for the value shapes the script adds:
string + string concatenates, int + int adds, every mixed combination
(notably string + int, as on lines 156 and 179) raises TypeError. -/
def py_add (a b : PyVal) : Except PyError PyVal :=
  match a, b with
  | .str x, .str y => .ok (.str (x ++ y))
  | .int x, .int y => .ok (.int (x + y))
  | _, _ => .error (.typeError)

def nat_digits : Nat → Nat → List Char
  | 0, _ => []
  | f + 1, n =>
    if n < 10 then [Char.ofNat (48 + n)]
    else nat_digits f (n / 10) ++ [Char.ofNat (48 + n % 10)]

def nat_to_str (n : Nat) : String := String.mk (nat_digits (n + 1) n)

def int_to_str : Int → String
  | .ofNat n => nat_to_str n
  | .negSucc n => ("-") ++ nat_to_str (n + 1)

/-- Models Python `str(i)` for the values appearing in version fields
(line 125). The repr of containers is not modelled; no claim exercises it. -/
def py_str : PyVal → String
  | .str s => s
  | .int n => int_to_str n
  | .bool b => if b then ("True") else ("False")
  | .null => ("None")
  | .list _ => ("[...]")
  | .dict _ => ("(dict)")

/-- Models Python `".".join(parts)`. -/
def join_dot : List String → String
  | [] => ("")
  | [x] => x
  | x :: xs => x ++ (".") ++ join_dot xs

/-- Models Python `key.split(":")` on the character level: splits at every
separator occurrence, never dropping empty pieces. -/
def split_on_char (sep : Char) : List Char → List (List Char)
  | [] => [[]]
  | c :: rest =>
    let r := split_on_char sep rest
    if c == sep then [] :: r
    else
      match r with
      | l :: ls => (c :: l) :: ls
      | [] => [[c]]

/-- Models Python `key.split(":")` (line 220). -/
def split_colon (s : String) : List String :=
  (split_on_char colonChar s.data).map String.mk

/-- Splits a character list into its newline-terminated lines and the
trailing segment after the last newline. -/
def split_newlines : List Char → List (List Char) × List Char
  | [] => ([], [])
  | c :: rest =>
    let r := split_newlines rest
    if c == newlineChar then ([] :: r.1, r.2)
    else
      match r.1 with
      | [] => ([], c :: r.2)
      | l :: ls => ((c :: l) :: ls, r.2)

/-- Does the line contain an adjacent pair of slashes? -/
def has_dslash : List Char → Bool
  | [] => false
  | c1 :: rest =>
    (match rest with
     | c2 :: _ => c1 == slashChar && c2 == slashChar
     | [] => false) || has_dslash rest

/-- The prefix of a line before its first pair of adjacent slashes. -/
def strip_line : List Char → List Char
  | [] => []
  | c1 :: rest =>
    match rest with
    | c2 :: _ =>
      if c1 == slashChar && c2 == slashChar then []
      else c1 :: strip_line rest
    | [] => [c1]

/-- Models `re.sub("//.*?[\n]", "", data)` (line 112 of the script). Each
match is a pair of slashes followed by the shortest run of non-newline
characters and the terminating newline, so every newline-terminated line
loses everything from its first pair of slashes through the newline
itself, wherever that pair occurs (including inside a quoted string
value), while text after the last newline can never complete a match and
is kept verbatim. -/
def strip_comments_list (cs : List Char) : List Char :=
  let p := split_newlines cs
  (p.1.map (fun l =>
    if has_dslash l then strip_line l else l ++ [newlineChar])).flatten ++ p.2

def strip_comments (s : String) : String := String.mk (strip_comments_list s.data)

/-- After a comma, does optional regex whitespace followed by a closing
bracket or brace come next? -/
def ws_then_bracket (cs : List Char) : Bool :=
  match cs.dropWhile is_py_space with
  | b :: _ => b == rbrackChar || b == rbraceChar
  | [] => false

/-- Models `re.sub(",\\s*([]}])", "\\1", data)` (line 113 of the script):
every comma followed by optional whitespace and a closing bracket or brace
is deleted together with that whitespace, wherever it occurs. The
left-to-right non-overlapping scan of re.sub coincides with this
right-fold because a match can only start at a comma and contains no
comma after its first character: when the head comma begins a match in the
original text, the processed tail starts with the same whitespace run and
bracket, so dropping the leading whitespace of the processed tail yields
exactly the replacement. -/
def strip_commas_list : List Char → List Char
  | [] => []
  | c :: rest =>
    let r := strip_commas_list rest
    if c == commaChar && ws_then_bracket rest then r.dropWhile is_py_space
    else c :: r

def strip_commas (s : String) : String := String.mk (strip_commas_list s.data)

def skip_ws_json (c : Char) : Bool :=
  c == spaceChar || c == tabChar || c == newlineChar || c == crChar

def skip_ws (cs : List Char) : List Char := cs.dropWhile skip_ws_json

/-- When `cs` starts with `lit`, the remainder after it. -/
def take_lit : List Char → List Char → Option (List Char)
  | [], rest => some rest
  | l :: ls, c :: rest => if c == l then take_lit ls rest else none
  | _ :: _, [] => none

def unescape_char (c : Char) : Option Char :=
  if c == quoteChar then some quoteChar
  else if c == backslashChar then some backslashChar
  else if c == slashChar then some slashChar
  else if c == Char.ofNat 110 then some newlineChar
  else if c == Char.ofNat 116 then some tabChar
  else if c == Char.ofNat 114 then some crChar
  else if c == Char.ofNat 98 then some (Char.ofNat 8)
  else if c == Char.ofNat 102 then some formfeedChar
  else none

/-- JSON string body, entered after the opening quote: returns the decoded
characters and the remainder after the closing quote. Unicode escapes are
not modelled; no claim exercises them. -/
def parse_jstring : Nat → List Char → Except PyError (List Char × List Char)
  | 0, _ => .error (.outOfFuel)
  | _ + 1, [] => .error (.jsonDecodeError)
  | f + 1, c :: rest =>
    if c == quoteChar then .ok ([], rest)
    else if c == backslashChar then
      match rest with
      | e :: rest2 =>
        match unescape_char e with
        | some ch =>
          match parse_jstring f rest2 with
          | .ok p => .ok (ch :: p.1, p.2)
          | .error err => .error err
        | none => .error (.jsonDecodeError)
      | [] => .error (.jsonDecodeError)
    else
      match parse_jstring f rest with
      | .ok p => .ok (c :: p.1, p.2)
      | .error err => .error err

def digits_to_nat (cs : List Char) : Nat :=
  cs.foldl (fun a c => a * 10 + (c.toNat - 48)) 0

/-- JSON integer literal. Fractional and exponent forms are rejected; the
descriptors exercised by the claims use only integers. -/
def parse_int_digits (cs : List Char) : Except PyError (Int × List Char) :=
  let digits := cs.takeWhile Char.isDigit
  let rest := cs.dropWhile Char.isDigit
  if digits.isEmpty then .error (.jsonDecodeError)
  else
    match rest with
    | c :: _ =>
      if c == dotChar || c == lowerEChar || c == upperEChar then
        .error (.jsonDecodeError)
      else .ok ((digits_to_nat digits : Nat), rest)
    | [] => .ok ((digits_to_nat digits : Nat), rest)

/-- Mode of the single fuelled JSON parsing loop: a value, the members of
an object after its opening brace, or the elements of an array after its
opening bracket. -/
inductive JMode where
  | value
  | members (acc : List (String × PyVal)) (first : Bool)
  | elems (acc : List PyVal) (first : Bool)

/-- Strict JSON decoder for the fragment `json.loads` is applied to by the
script: objects, arrays, strings, integers, booleans and null, with no
tolerance for comments or trailing commas (those are removed by the two
textual passes beforehand). -/
def parse_json : Nat → JMode → List Char → Except PyError (PyVal × List Char)
  | 0, _, _ => .error (.outOfFuel)
  | f + 1, .value, cs =>
    match skip_ws cs with
    | [] => .error (.jsonDecodeError)
    | c :: rest =>
      if c == quoteChar then
        match parse_jstring (rest.length + 1) rest with
        | .ok p => .ok (.str (String.mk p.1), p.2)
        | .error err => .error err
      else if c == lbraceChar then parse_json f (.members [] true) rest
      else if c == lbrackChar then parse_json f (.elems [] true) rest
      else if c == minusChar then
        match parse_int_digits rest with
        | .ok p => .ok (.int (-p.1), p.2)
        | .error err => .error err
      else if c.isDigit then
        match parse_int_digits (c :: rest) with
        | .ok p => .ok (.int p.1, p.2)
        | .error err => .error err
      else
        match take_lit (("true")).data (c :: rest) with
        | some r => .ok (.bool true, r)
        | none =>
          match take_lit (("false")).data (c :: rest) with
          | some r => .ok (.bool false, r)
          | none =>
            match take_lit (("null")).data (c :: rest) with
            | some r => .ok (.null, r)
            | none => .error (.jsonDecodeError)
  | f + 1, .members acc first, cs =>
    match skip_ws cs with
    | [] => .error (.jsonDecodeError)
    | c :: rest =>
      if first && (c == rbraceChar) && acc.isEmpty then .ok (.dict [], rest)
      else if c == quoteChar then
        match parse_jstring (rest.length + 1) rest with
        | .error err => .error err
        | .ok kp =>
          match skip_ws kp.2 with
          | c2 :: rest2 =>
            if c2 == colonChar then
              match parse_json f .value rest2 with
              | .error err => .error err
              | .ok vp =>
                let acc2 := acc ++ [(String.mk kp.1, vp.1)]
                match skip_ws vp.2 with
                | c3 :: rest4 =>
                  if c3 == commaChar then parse_json f (.members acc2 false) rest4
                  else if c3 == rbraceChar then .ok (.dict acc2, rest4)
                  else .error (.jsonDecodeError)
                | [] => .error (.jsonDecodeError)
            else .error (.jsonDecodeError)
          | [] => .error (.jsonDecodeError)
      else .error (.jsonDecodeError)
  | f + 1, .elems acc first, cs =>
    match skip_ws cs with
    | [] => .error (.jsonDecodeError)
    | c :: rest =>
      if first && (c == rbrackChar) && acc.isEmpty then .ok (.list [], rest)
      else
        match parse_json f .value (c :: rest) with
        | .error err => .error err
        | .ok vp =>
          let acc2 := acc ++ [vp.1]
          match skip_ws vp.2 with
          | c2 :: rest2 =>
            if c2 == commaChar then parse_json f (.elems acc2 false) rest2
            else if c2 == rbrackChar then .ok (.list acc2, rest2)
            else .error (.jsonDecodeError)
          | [] => .error (.jsonDecodeError)

/-- Models `json.loads` (line 114): decode one value and require only
whitespace after it. -/
def json_loads (s : String) : Except PyError PyVal :=
  match parse_json (2 * s.data.length + 8) .value s.data with
  | .ok p => if (skip_ws p.2).isEmpty then .ok p.1 else .error (.jsonDecodeError)
  | .error err => .error err

/-- Models the version sanitization block, lines 116-125 of the script:
read `info["Version"]` (KeyError when absent), test
`"MajorVersion" in info["Version"]` (substring containment when the
version is a plain string), and in the structured branch read all four of
MajorVersion, MinorVersion, PatchVersion and Build unconditionally, drop
the values that are the interned empty string, stringify the rest and join
them with dots back into `info["Version"]`. -/
def sanitize_version (info : PyVal) : Except PyError PyVal := do
  let v ← py_getitem info (("Version"))
  let hasMajor ← py_contains (("MajorVersion")) v
  if hasMajor then do
    let a ← py_getitem v (("MajorVersion"))
    let b ← py_getitem v (("MinorVersion"))
    let p ← py_getitem v (("PatchVersion"))
    let d ← py_getitem v (("Build"))
    let parts := ([a, b, p, d]).filter (fun i => !(is_empty_str i))
    pure (dict_set info (("Version")) (.str (join_dot (parts.map py_str))))
  else
    pure info

/-- Models one manifest parse, lines 108-125 of the script (the body of
the try block): read the descriptor text (the BOM-tolerant decoding is
outside the model), strip line comments, strip trailing separators, decode
strictly, then sanitize the version. Any error escaping this function is
caught by the caller, logged, and drops that single mod. -/
def parse_manifest (data : String) : Except PyError PyVal := do
  let d1 := strip_comments data
  let d2 := strip_commas d1
  let info ← json_loads d2
  sanitize_version info

/-- A POSIX directory tree: the scanner's input. -/
inductive FsEntry where
  | dir (name : String) (entries : List FsEntry)
  | file (name : String) (content : String)

def fs_name : FsEntry → String
  | .dir n _ => n
  | .file n _ => n

/-- Models `os.path.isdir`. -/
def fs_is_dir : FsEntry → Bool
  | .dir _ _ => true
  | .file _ _ => false

/-- Models Python `file[0] == "."` on a directory-entry name (line 99). -/
def is_hidden (name : String) : Bool :=
  match name.data with
  | c :: _ => c == dotChar
  | [] => false

/-- Models `os.path.exists(os.path.join(path, "manifest.json"))` followed
by the open: the child entry named manifest.json, if any. Under a
non-directory path the joined path never exists. -/
def manifest_entry : FsEntry → Option FsEntry
  | .dir _ entries => entries.find? (fun c => fs_name c == (("manifest.json")))
  | .file _ _ => none

/-- Models the `scan` function of the script, lines 94-140, as one fuelled
loop (left alternative: scan one entry, i.e. a call `scan(path)`; right
alternative: the remaining iterations of the `for file in
os.listdir(basedir)` loop). `os.listdir` on a non-directory raises
NotADirectoryError, which no handler in `scan` catches, so it propagates
through the recursion (the try block only covers manifest parsing).
The result carries the stderr diagnostics emitted before returning or
crashing, and on the non-crash side the `res` flag and the mods appended
to the global list, in traversal order. Note that after the not-a-directory
warning of line 104 the loop body continues: there is no `continue`
statement, so a non-directory entry still reaches the manifest check and,
lacking a manifest, the recursive `scan` call. -/
def scan_fuel : Nat → Sum FsEntry (List FsEntry) → List Diag × Except PyError (Bool × List PyVal)
  | 0, _ => ([], .error (.outOfFuel))
  | _ + 1, .inl (.file _ _) => ([], .error (.notADirectoryError))
  | f + 1, .inl (.dir _ entries) => scan_fuel f (.inr entries)
  | _ + 1, .inr [] => ([], .ok (false, []))
  | f + 1, .inr (e :: rest) =>
    if is_hidden (fs_name e) then scan_fuel f (.inr rest)
    else
      let warn : List Diag :=
        if fs_is_dir e then [] else [Diag.notDirectory (fs_name e)]
      match manifest_entry e with
      | some (.file _ content) =>
        (match parse_manifest content with
         | .ok info =>
           let r := scan_fuel f (.inr rest)
           (warn ++ r.1, Except.map (fun pr => (true, info :: pr.2)) r.2)
         | .error _ =>
           let r := scan_fuel f (.inr rest)
           (warn ++ [Diag.parseFailed (fs_name e)] ++ r.1, r.2))
      | some (.dir _ _) =>
        let r := scan_fuel f (.inr rest)
        (warn ++ [Diag.parseFailed (fs_name e)] ++ r.1, r.2)
      | none =>
        match scan_fuel f (.inl e) with
        | (d2, .error err) => (warn ++ d2, .error err)
        | (d2, .ok fm) =>
          let warn2 : List Diag := if fm.1 then [] else [Diag.noMods (fs_name e)]
          let r := scan_fuel f (.inr rest)
          (warn ++ d2 ++ warn2 ++ r.1,
           Except.map (fun pr => (fm.1 || pr.1, fm.2 ++ pr.2)) r.2)

mutual

/-- Size of a directory tree, bounding the scan recursion depth. -/
def fs_size : FsEntry → Nat
  | .file _ _ => 1
  | .dir _ es => 1 + fs_list_size es

def fs_list_size : List FsEntry → Nat
  | [] => 1
  | e :: rest => 1 + fs_size e + fs_list_size rest

end

/-- The scan entry point: the fuel exceeds the recursion depth for every
tree, so `outOfFuel` is unreachable. -/
def scan (e : FsEntry) : List Diag × Except PyError (Bool × List PyVal) :=
  scan_fuel (fs_size e + 1) (.inl e)

/-- The decorate step of `mods.sort(key=lambda x: x["Name"])` (line 146):
CPython computes the key of every element, in list order, before
comparing; a missing Name raises KeyError out of the sort. -/
def name_keyed : List PyVal → Except PyError (List (PyVal × PyVal))
  | [] => .ok []
  | m :: rest => do
    let k ← py_getitem m (("Name"))
    let r ← name_keyed rest
    pure ((k, m) :: r)

/-- Key order used by the sort. String keys compare lexicographically; the
TypeError Python raises when comparing keys of mixed types is not
modelled, as no claim exercises it. -/
def key_le : PyVal → PyVal → Bool
  | .str a, .str b => a ≤ b
  | _, _ => true

def insert_by_key (x : PyVal × PyVal) : List (PyVal × PyVal) → List (PyVal × PyVal)
  | [] => [x]
  | y :: ys => if key_le x.1 y.1 then x :: y :: ys else y :: insert_by_key x ys

def sort_pairs : List (PyVal × PyVal) → List (PyVal × PyVal)
  | [] => []
  | x :: xs => insert_by_key x (sort_pairs xs)

/-- Models `mods.sort(key=lambda x: x["Name"])` (line 146). -/
def sort_mods (mods : List PyVal) : Except PyError (List PyVal) := do
  let keyed ← name_keyed mods
  pure ((sort_pairs keyed).map (fun kv => kv.2))

/-- The filter `[x for x in info["UpdateKeys"] if ":" in x]` of line 159,
evaluating the containment tests left to right. -/
def filter_colon_keys : List PyVal → Except PyError (List PyVal)
  | [] => .ok []
  | x :: xs => do
    let b ← py_contains ((":")) x
    let r ← filter_colon_keys xs
    pure (if b then x :: r else r)

/-- The UpdateKeys part of `mod_id`, lines 158-161: collect the update
keys containing a separator into res["updateKeys"], omitting the field
when none qualify. Iteration over a non-list UpdateKeys value is not
modelled. -/
def mod_id_keys (info res : PyVal) : Except PyError (PyVal × PyVal) := do
  let hasKeys ← py_contains (("UpdateKeys")) info
  if hasKeys then do
    let uk ← py_getitem info (("UpdateKeys"))
    match uk with
    | .list xs => do
      let keys ← filter_colon_keys xs
      if keys.isEmpty then pure (res, info)
      else pure (dict_set res (("updateKeys")) (.list keys), info)
    | _ => .error (.typeError)
  else pure (res, info)

/-- Models `mod_id` (lines 149-163), returning the request entry `res`
together with the possibly mutated `info`. When UniqueID is absent the
code first builds and prints the error diagnostic (reading
`info["Name"]`), then evaluates `"FAKE." + fake_unique_id` on line 156.
Because line 157 assigns `fake_unique_id` with no `global` declaration,
CPython treats `fake_unique_id` as a local of `mod_id` that is still
unbound at the read on line 156, which therefore raises
UnboundLocalError; the local is modelled by the `none` value below. Even
if the global were visible, the addition is string + int and would raise
TypeError (see py_add). -/
def mod_id (info : PyVal) : Except PyError (PyVal × PyVal) := do
  let hasId ← py_contains (("UniqueID")) info
  if hasId then do
    let uid ← py_getitem info (("UniqueID"))
    let res := dict_set (.dict []) (("id")) uid
    mod_id_keys info res
  else do
    let nm ← py_getitem info (("Name"))
    let _msg ← py_add (.str ("ERROR: UniqueID is missing for ")) nm
    let fake_unique_id : Option PyVal := none
    match fake_unique_id with
    | none => Except.error (.unboundLocalError (("fake_unique_id")))
    | some n => do
      let s ← py_add (.str ("FAKE.")) n
      let info2 := dict_set info (("UniqueID")) s
      let res := dict_set (.dict []) (("id")) s
      mod_id_keys info2 res

/-- One release channel of the smapi.io metadata: a version and a url. -/
structure Channel where
  version : String
  url : String

/-- The metadata object of one response entry, before the `"main" in
x["metadata"]` filter of line 183: each channel may be absent. -/
structure RespMeta where
  main : Option Channel
  optional : Option Channel
  unofficial : Option Channel

/-- The already-decoded smapi.io response: status, reason and the parsed
body entries (id, metadata). -/
structure HttpResponse where
  status : Int
  reason : String
  body : List (String × RespMeta)

/-- One entry of `better_info`: the line 183 comprehension keeps only
metadata containing a `main` channel, so `main` is total here. -/
structure RemoteEntry where
  main : Channel
  optional : Option Channel
  unofficial : Option Channel

/-- Models `get_better_info` (lines 171-184) applied to a response. When
the enrichment switch is off it returns the empty map without any call.
On a non-200 status the code builds the warning message
`"Warning: ..." + res.status + " " + res.reason`; `res.status` is an int,
so the first concatenation is string + int. On a 200 status it keeps the
entries whose metadata has a `main` channel, keyed by id. -/
def get_better_info (request_smapi : Bool) (resp : HttpResponse) :
    Except PyError (List (String × RemoteEntry)) :=
  if request_smapi = false then .ok []
  else if resp.status ≠ 200 then
    (py_add (.str ("Warning: Failed to obtain info from api.smapi.io: "))
        (.int resp.status)).bind (fun w1 =>
      (py_add w1 (.str (" "))).bind (fun w2 =>
        (py_add w2 (.str resp.reason)).bind (fun _ => .ok [])))
  else
    .ok (resp.body.filterMap (fun p =>
      match p.2.main with
      | some m => some (p.1, ⟨m, p.2.optional, p.2.unofficial⟩)
      | none => none))

/-- A mod record as seen by `guess_url`: by this stage UniqueID is present
(mods without one crash earlier, in mod_id) and Version has been
normalized to a string. UpdateKeys is the raw optional list from the
manifest. -/
structure ModRec where
  Name : String
  UniqueID : String
  Version : String
  UpdateKeys : Option (List String)

/-- Outcome of URL resolution: a url, or none together with the
diagnostic the script logs. -/
inductive UrlOutcome where
  | found (url : String)
  | noUrl (d : Diag)

/-- Lookup `info["UniqueID"] in better_info` / `better_info[...]`. -/
def lookup_meta (bi : List (String × RemoteEntry)) (id : String) : Option RemoteEntry :=
  (bi.find? (fun p => p.1 == id)).map (fun p => p.2)

/-- Models `check_version` (lines 193-194):
`kind in better and version == better[kind]["version"]`. -/
def check_version (ch : Option Channel) (version : String) : Bool :=
  match ch with
  | some c => version == c.version
  | none => false

/-- The url of a channel; only read under a successful check_version, which
guarantees the channel is present. -/
def channel_url : Option Channel → String
  | some c => c.url
  | none => ("")

/-- Models `guess_url` (lines 198-230). In the remote branch the channels
are tried in the order optional, unofficial, main, the first two only on
an exact version match, main unconditionally. Otherwise the code takes
`info["UpdateKeys"][0]` — the literal first entry, whatever it contains —
with a missing-key diagnostic when UpdateKeys is absent or empty; the
unpacking `site, index = key.split(":")` succeeds only when the split has
exactly two parts, otherwise the invalid-key diagnostic is logged; a
two-part key resolves only for the Nexus site. -/
def guess_url (bi : List (String × RemoteEntry)) (info : ModRec) : UrlOutcome :=
  match lookup_meta bi info.UniqueID with
  | some better =>
    if check_version better.optional info.Version then
      .found (channel_url better.optional)
    else if check_version better.unofficial info.Version then
      .found (channel_url better.unofficial)
    else .found (better.main.url)
  | none =>
    match info.UpdateKeys with
    | none => .noUrl (.missingUpdateKey info.Name)
    | some [] => .noUrl (.missingUpdateKey info.Name)
    | some (key :: _) =>
      match split_colon key with
      | [site, index] =>
        if site == (("Nexus")) then
          .found ((("https://www.nexusmods.com/stardewvalley/mods/")) ++ index)
        else .noUrl (.unrecognizedUpdateKey info.Name key)
      | _ => .noUrl (.invalidUpdateKey info.Name key)

/-- A descriptor with a Version but no Name, well-formed JSON. -/
def manifest_no_name : String := "\x7b\"Version\": \"1.0\"\x7d"

/-- A well-formed JSON descriptor whose Description string value contains
a comma directly before a closing brace. -/
def descr_with_comma : String :=
  "\x7b\"Name\": \"A\", \"Version\": \"1.0\", \"Description\": \"a,\x7d\"\x7d"

/-- The structured version object of the spec's normalization example. -/
def c6_version : PyVal :=
  .dict [((("MajorVersion")), .int 1), ((("MinorVersion")), .int 2),
         ((("PatchVersion")), .int 0), ((("Build")), .str (""))]

def c6_info : PyVal := .dict [((("Name")), .str ("B")), ((("Version")), c6_version)]

def wit_channel : Channel := ⟨("1.2.0"), ("https://example.org/opt")⟩

/-- A remote entry whose optional channel matches version 1.2.0 while a
main channel is also present. -/
def wit_entry : RemoteEntry :=
  ⟨⟨("9.9.9"), ("https://example.org/main")⟩, some wit_channel, none⟩

theorem space_not_comma (c : Char) (h : is_py_space c = true) :
    (c == commaChar) = false := by
  simp only [is_py_space, Bool.or_eq_true, beq_iff_eq] at h
  rcases h with ((((h | h) | h) | h) | h) | h <;> subst h <;> decide

theorem bracket_not_comma (b : Char) (hb : b = rbrackChar ∨ b = rbraceChar) :
    (b == commaChar) = false := by
  rcases hb with h | h <;> subst h <;> decide

theorem bracket_not_space (b : Char) (hb : b = rbrackChar ∨ b = rbraceChar) :
    is_py_space b = false := by
  rcases hb with h | h <;> subst h <;> decide

theorem drop_leading_ws (ws : List Char) (b : Char) (tail : List Char)
    (hws : ∀ c ∈ ws, is_py_space c = true) (hb : is_py_space b = false) :
    List.dropWhile is_py_space (ws ++ b :: tail) = b :: tail := by
  induction ws with
  | nil => simp [List.dropWhile, hb]
  | cons w ws ih =>
    have hw := hws w (List.mem_cons_self w ws)
    simp only [List.cons_append, List.dropWhile, hw]
    exact ih (fun c hc => hws c (List.mem_cons_of_mem w hc))

theorem wtb_of_ws_bracket (ws : List Char) (b : Char) (rest : List Char)
    (hws : ∀ c ∈ ws, is_py_space c = true) (hb : b = rbrackChar ∨ b = rbraceChar) :
    ws_then_bracket (ws ++ b :: rest) = true := by
  unfold ws_then_bracket
  rw [drop_leading_ws ws b rest hws (bracket_not_space b hb)]
  show (b == rbrackChar || b == rbraceChar) = true
  rcases hb with h | h <;> subst h <;> decide

theorem strip_commas_ws (ws : List Char) (b : Char) (rest : List Char)
    (hws : ∀ c ∈ ws, is_py_space c = true) (hb : (b == commaChar) = false) :
    strip_commas_list (ws ++ b :: rest) = ws ++ b :: strip_commas_list rest := by
  induction ws with
  | nil => simp [strip_commas_list, hb]
  | cons w ws ih =>
    have hw := space_not_comma w (hws w (List.mem_cons_self w ws))
    simp only [List.cons_append, strip_commas_list, hw, Bool.false_and,
      Bool.false_eq_true, if_false, List.append_eq]
    rw [ih (fun c hc => hws c (List.mem_cons_of_mem w hc))]

theorem strip_commas_match (pre ws rest : List Char) (b : Char)
    (hpre : commaChar ∉ pre) (hws : ∀ c ∈ ws, is_py_space c = true)
    (hb : b = rbrackChar ∨ b = rbraceChar) :
    strip_commas_list (pre ++ commaChar :: (ws ++ b :: rest))
      = pre ++ b :: strip_commas_list rest := by
  induction pre with
  | nil =>
    simp only [List.nil_append, strip_commas_list, beq_self_eq_true, Bool.true_and,
      wtb_of_ws_bracket ws b rest hws hb, if_true]
    rw [strip_commas_ws ws b rest hws (bracket_not_comma b hb)]
    exact drop_leading_ws ws b (strip_commas_list rest) hws (bracket_not_space b hb)
  | cons c pre ih =>
    have hc : (c == commaChar) = false := by
      rcases h : c == commaChar
      · rfl
      · exact absurd (List.mem_cons_self c pre) (by rw [eq_of_beq h] at hpre ⊢; exact hpre)
    simp only [List.cons_append, strip_commas_list, hc, Bool.false_and,
      Bool.false_eq_true, if_false, List.append_eq]
    rw [ih (fun h => hpre (List.mem_cons_of_mem c h))]

theorem split_newlines_append (l rest : List Char) (hl : newlineChar ∉ l) :
    split_newlines (l ++ newlineChar :: rest)
      = (l :: (split_newlines rest).1, (split_newlines rest).2) := by
  induction l with
  | nil => simp [split_newlines]
  | cons c l ih =>
    have hc : (c == newlineChar) = false := by
      rcases h : c == newlineChar
      · rfl
      · exact absurd (List.mem_cons_self c l) (by rw [eq_of_beq h] at hl ⊢; exact hl)
    have ih2 := ih (fun h => hl (List.mem_cons_of_mem c h))
    simp only [List.cons_append, split_newlines, hc, Bool.false_eq_true, if_false,
      List.append_eq, ih2]

theorem has_dslash_append (xs ys : List Char) (h : has_dslash ys = true) :
    has_dslash (xs ++ ys) = true := by
  induction xs with
  | nil => simpa using h
  | cons c xs ih =>
    simp only [List.cons_append, has_dslash, List.append_eq, ih, Bool.or_true]

theorem has_dslash_pair (mid : List Char) :
    has_dslash (slashChar :: slashChar :: mid) = true := by
  simp [has_dslash]

theorem strip_line_before_pair (pre mid : List Char) (hs : slashChar ∉ pre) :
    strip_line (pre ++ slashChar :: slashChar :: mid) = pre := by
  induction pre with
  | nil => simp [strip_line]
  | cons c pre ih =>
    have hc : (c == slashChar) = false := by
      rcases h : c == slashChar
      · rfl
      · exact absurd (List.mem_cons_self c pre) (by rw [eq_of_beq h] at hs ⊢; exact hs)
    obtain ⟨r1, r2, hr⟩ : ∃ a as, pre ++ slashChar :: slashChar :: mid = a :: as := by
      cases pre <;> exact ⟨_, _, rfl⟩
    rw [List.cons_append, hr, strip_line]
    simp only [hc, Bool.false_and, Bool.false_eq_true, if_false]
    rw [← hr, ih (fun h => hs (List.mem_cons_of_mem c h))]

/-- Claim C8, amended: comment stripping removes, on every
newline-terminated line, everything from the first `//` through to and
including that newline — also when the `//` sits inside a quoted string
value, as the pass is purely textual — before the trailing-separator pass
and strict decoding; a `//` on a final line not terminated by a newline is
left in place, because the regex requires the terminating newline. -/
theorem strip_comments_line_removal (pre mid rest : List Char)
    (hs : slashChar ∉ pre) (hp : newlineChar ∉ pre) (hm : newlineChar ∉ mid) :
    strip_comments_list (pre ++ slashChar :: slashChar :: (mid ++ newlineChar :: rest))
      = pre ++ strip_comments_list rest := by
  have hl : newlineChar ∉ pre ++ slashChar :: slashChar :: mid := by
    intro hmem
    rcases List.mem_append.mp hmem with h | h
    · exact hp h
    · simp only [List.mem_cons] at h
      rcases h with h | h | h
      · exact absurd h (by decide)
      · exact absurd h (by decide)
      · exact hm h
  have hgroup : pre ++ slashChar :: slashChar :: (mid ++ newlineChar :: rest)
      = (pre ++ slashChar :: slashChar :: mid) ++ newlineChar :: rest := by
    simp [List.append_assoc]
  unfold strip_comments_list
  rw [hgroup, split_newlines_append _ rest hl]
  simp only [List.map_cons, List.flatten_cons,
    has_dslash_append pre _ (has_dslash_pair mid), if_true,
    strip_line_before_pair pre mid hs, List.append_assoc]

/-- Witness for C8 at a concrete descriptor line: the pair of slashes in
the middle of a quoted url value starts the removed span. -/
theorem strip_comments_line_removal_witness :
    strip_comments_list ((("\x7b\"Url\": \"http:")).data
        ++ slashChar :: slashChar :: ((("x.com\"")).data
        ++ newlineChar :: (("\x7d")).data))
      = (("\x7b\"Url\": \"http:")).data ++ strip_comments_list ((("\x7d")).data) :=
  strip_comments_line_removal _ _ _ (by decide) (by decide) (by decide)

/-- Counterexample to C8 as stated: in a descriptor consisting of the
single unterminated line with a comment, the substring from `//` to the
end of the line is not removed at all, so "for every line" fails on final
lines lacking a newline. -/
theorem strip_comments_unterminated_counterexample :
    strip_comments (("// x")) = (("// x")) ∧ (("// x")) ≠ (("")) :=
  ⟨rfl, by decide⟩

/-- Claim C10: the trailing-separator pass deletes every comma followed by
optional whitespace and a closing bracket or brace, anywhere in the text,
including inside quoted string values; consequently for the well-formed
descriptor descr_with_comma, whose Description value is written as the
five characters a , close-brace (strictly decoded as such by json_loads),
the pipeline decodes Description to the two characters a close-brace — a
value different from the one written in the file. -/
theorem strip_commas_lossy :
    (∀ pre ws rest : List Char, ∀ b : Char, commaChar ∉ pre →
        (∀ c ∈ ws, is_py_space c = true) → (b = rbrackChar ∨ b = rbraceChar) →
        strip_commas_list (pre ++ commaChar :: (ws ++ b :: rest))
          = pre ++ b :: strip_commas_list rest)
    ∧ json_loads descr_with_comma
        = .ok (.dict [((("Name")), .str ("A")), ((("Version")), .str ("1.0")),
                      ((("Description")), .str ("a,\x7d"))])
    ∧ parse_manifest descr_with_comma
        = .ok (.dict [((("Name")), .str ("A")), ((("Version")), .str ("1.0")),
                      ((("Description")), .str ("a\x7d"))])
    ∧ (("a,\x7d") : String) ≠ (("a\x7d")) :=
  ⟨fun pre ws rest b hpre hws hb => strip_commas_match pre ws rest b hpre hws hb,
   rfl, rfl, by decide⟩

/-- Witness for C10's universally quantified part at a concrete fragment:
a comma, one space and a closing brace collapse to the brace. -/
theorem strip_commas_lossy_witness :
    strip_commas_list ((("\"a\"")).data
        ++ commaChar :: ([spaceChar] ++ rbraceChar :: (("x")).data))
      = (("\"a\"")).data ++ rbraceChar :: strip_commas_list ((("x")).data) :=
  strip_commas_lossy.1 _ _ _ _ (by decide) (by decide) (Or.inr rfl)

/-- Claim C9, amended: the normalization pass leaves a plain-string
Version unchanged whenever the string does not contain "MajorVersion" as a
substring; because the containment test of line 117 is a substring test on
strings, a plain-string Version containing that substring is instead
treated as structured and raises a TypeError when subscripted, making that
descriptor a parse error. -/
theorem sanitize_version_plain_string (info : PyVal) (s : String)
    (hv : py_getitem info (("Version")) = .ok (.str s))
    (hns : has_sub ((("MajorVersion"))).data s.data = false) :
    sanitize_version info = .ok info := by
  simp [sanitize_version, hv, py_contains, hns, bind, Except.bind, pure, Except.pure]

/-- Witness for C9 at the already-normalized version string 1.2.0. -/
theorem sanitize_version_plain_string_witness :
    sanitize_version (.dict [((("Version")), .str ("1.2.0"))])
      = .ok (.dict [((("Version")), .str ("1.2.0"))]) :=
  sanitize_version_plain_string _ (("1.2.0")) rfl rfl

/-- Counterexample to C9 as stated: the Version field holding the plain
string "MajorVersion" is not left unchanged; the pass raises TypeError
(string subscripted with a string key), so that mod is dropped as a parse
error. -/
theorem sanitize_version_substring_counterexample :
    sanitize_version (.dict [((("Version")), .str ("MajorVersion"))]) = .error (.typeError)
    ∧ sanitize_version (.dict [((("Version")), .str ("MajorVersion"))])
        ≠ .ok (.dict [((("Version")), .str ("MajorVersion"))]) :=
  ⟨rfl, fun h => nomatch h⟩

/-- Claim C6, amended: when Version is a mapping containing MajorVersion,
normalization reads all four of MajorVersion, MinorVersion, PatchVersion
and Build unconditionally — an absent MinorVersion, PatchVersion or Build
raises KeyError, making that descriptor a parse error — and when all four
are present it drops the empty-string values, stringifies the rest and
joins them with dots into Version. -/
theorem sanitize_version_structured (info v a b p d : PyVal)
    (hv : py_getitem info (("Version")) = .ok v)
    (hc : py_contains (("MajorVersion")) v = .ok true)
    (ha : py_getitem v (("MajorVersion")) = .ok a)
    (hb : py_getitem v (("MinorVersion")) = .ok b)
    (hp : py_getitem v (("PatchVersion")) = .ok p)
    (hd : py_getitem v (("Build")) = .ok d) :
    sanitize_version info = .ok (dict_set info (("Version"))
      (.str (join_dot ((([a, b, p, d]).filter (fun i => !(is_empty_str i))).map py_str)))) := by
  simp [sanitize_version, hv, hc, ha, hb, hp, hd, bind, Except.bind, pure, Except.pure]

/-- Witness for C6: the spec's example structured version normalizes to
1.2.0, the empty Build omitted. -/
theorem sanitize_version_structured_witness :
    sanitize_version c6_info
      = .ok (.dict [((("Name")), .str ("B")), ((("Version")), .str ("1.2.0"))]) := by
  have h := sanitize_version_structured c6_info c6_version (.int 1) (.int 2) (.int 0)
    (.str ("")) rfl rfl rfl rfl rfl rfl
  exact h

/-- Counterexample to C6 as stated: a structured version carrying only
MajorVersion does not normalize successfully; reading the absent
MinorVersion raises KeyError and the descriptor becomes a parse error. -/
theorem sanitize_version_missing_field_counterexample :
    sanitize_version (.dict [((("Name")), .str ("A")),
        ((("Version")), .dict [((("MajorVersion")), .int 1)])])
      = .error (.keyError (("MinorVersion")))
    ∧ ∀ r, sanitize_version (.dict [((("Name")), .str ("A")),
        ((("Version")), .dict [((("MajorVersion")), .int 1)])]) ≠ .ok r :=
  ⟨rfl, fun _ h => nomatch h⟩

theorem name_keyed_error (pre : List PyVal) (m : PyVal) (post : List PyVal) (e : PyError)
    (hpre : ∀ x ∈ pre, ∃ v, py_getitem x (("Name")) = .ok v)
    (hm : py_getitem m (("Name")) = .error e) :
    name_keyed (pre ++ m :: post) = .error e := by
  induction pre with
  | nil => simp [name_keyed, hm, bind, Except.bind]
  | cons x pre ih =>
    obtain ⟨v, hv⟩ := hpre x (List.mem_cons_self x pre)
    have h2 := ih (fun y hy => hpre y (List.mem_cons_of_mem x hy))
    simp [name_keyed, hv, h2, bind, Except.bind]

/-- Claim C7, amended: a descriptor lacking Name is not a parse error at
all — the record parses and is kept — but when the sort key
`lambda x: x["Name"]` is computed for it, the KeyError escapes the sort
uncaught and terminates the whole run, not just that mod (the run is also
terminated by a missing root directory or an unrecognized output format,
but a missing Name is a further terminating condition). -/
theorem sort_mods_missing_name_aborts (pre : List PyVal) (m : PyVal) (post : List PyVal)
    (e : PyError)
    (hpre : ∀ x ∈ pre, ∃ v, py_getitem x (("Name")) = .ok v)
    (hm : py_getitem m (("Name")) = .error e) :
    sort_mods (pre ++ m :: post) = .error e := by
  simp [sort_mods, name_keyed_error pre m post e hpre hm, bind, Except.bind]

/-- Witness for C7: sorting a one-element list whose record has no Name
raises KeyError. -/
theorem sort_mods_missing_name_aborts_witness :
    sort_mods ([] ++ (.dict []) :: []) = .error (.keyError (("Name"))) :=
  sort_mods_missing_name_aborts [] (.dict []) [] (.keyError (("Name")))
    (fun x hx => absurd hx (List.not_mem_nil x)) rfl

/-- Counterexample to C7 as stated: the Name-less descriptor
manifest_no_name parses successfully (the mod is not dropped), and the
later sort of the collection containing it raises KeyError, aborting the
run instead of continuing. -/
theorem missing_name_kept_then_sort_aborts :
    parse_manifest manifest_no_name = .ok (.dict [((("Version")), .str ("1.0"))])
    ∧ sort_mods [.dict [((("Version")), .str ("1.0"))]] = .error (.keyError (("Name"))) :=
  ⟨rfl, rfl⟩

/-- Claim C5: scanning a Mods directory whose entry readme.txt is a plain
file emits the not-a-directory warning but does not skip the entry: the
loop body continues, finds no manifest under the file path, recurses
into it, and the uncaught NotADirectoryError from os.listdir aborts the
run. -/
theorem scan_nondirectory_warns_then_aborts :
    scan (.dir ("Mods") [.file ("readme.txt") ("hello")])
      = ([Diag.notDirectory (("readme.txt"))], .error (.notADirectoryError)) := rfl

/-- Claim C2: calling mod_id on a record lacking UniqueID raises
UnboundLocalError at the read of fake_unique_id (line 157 assigns it
without a global declaration, making it an unbound local at line 156), so
no FAKE identifier is synthesized, nothing is written back, and the run
aborts; moreover even under a global declaration the synthesis expression
"FAKE." + 0 would raise TypeError. -/
theorem mod_id_missing_unique_id_raises :
    mod_id (.dict [((("Name")), .str ("Example Mod"))])
      = .error (.unboundLocalError (("fake_unique_id")))
    ∧ py_add (.str ("FAKE.")) (.int 0) = .error (.typeError) :=
  ⟨rfl, rfl⟩

/-- Claim C1: for every response whose status differs from 200,
get_better_info raises TypeError while concatenating the warning message
(string + int on the status), instead of warning and returning the empty
metadata map; the enrichment failure therefore aborts the run. -/
theorem get_better_info_nonsuccess_raises (resp : HttpResponse) (h : resp.status ≠ 200) :
    get_better_info true resp = .error (.typeError) := by
  simp [get_better_info, h, py_add, Except.bind]

/-- Witness for C1 at a concrete 404 response. -/
theorem get_better_info_nonsuccess_raises_witness :
    get_better_info true ⟨404, ("Not Found"), []⟩ = .error (.typeError) :=
  get_better_info_nonsuccess_raises ⟨404, ("Not Found"), []⟩ (by decide)

/-- Claim C3: when the mod's identifier has an entry in the remote
metadata, the channels are consulted in the order optional, unofficial,
main: an optional channel whose recorded version equals the mod's
normalized Version wins even though main is always present; failing that,
an unofficial channel under the same exact-version condition; failing
both, the main channel's url unconditionally. -/
theorem guess_url_remote_priority (bi : List (String × RemoteEntry)) (info : ModRec)
    (better : RemoteEntry) (h : lookup_meta bi info.UniqueID = some better) :
    (∀ c, better.optional = some c → info.Version = c.version →
        guess_url bi info = .found c.url)
    ∧ (check_version better.optional info.Version = false →
        ∀ c, better.unofficial = some c → info.Version = c.version →
          guess_url bi info = .found c.url)
    ∧ (check_version better.optional info.Version = false →
        check_version better.unofficial info.Version = false →
          guess_url bi info = .found better.main.url) := by
  refine ⟨?_, ?_, ?_⟩
  · intro c hc hv
    simp [guess_url, h, check_version, hc, hv, channel_url]
  · intro hopt c hc hv
    simp only [guess_url, h]
    rw [hopt]
    simp [check_version, hc, hv, channel_url]
  · intro hopt hunof
    simp [guess_url, h, hopt, hunof]

/-- Witness for C3: with an optional channel matching version 1.2.0 and a
main channel also present, the optional url is returned. -/
theorem guess_url_remote_priority_witness :
    guess_url [((("a.mod")), wit_entry)] ⟨("A"), ("a.mod"), ("1.2.0"), none⟩
      = .found (("https://example.org/opt")) :=
  (guess_url_remote_priority [((("a.mod")), wit_entry)]
    ⟨("A"), ("a.mod"), ("1.2.0"), none⟩ wit_entry rfl).1 wit_channel rfl rfl

/-- Claim C4, amended: with no remote-metadata entry, resolution uses the
literal first UpdateKeys entry — UpdateKeys[0], whether or not it contains
a separator — not the first entry containing a colon. Absent or empty
UpdateKeys yields no URL with the missing-key diagnostic; a first key
whose colon-split does not have exactly two parts yields no URL with the
malformed-key diagnostic, even when a later entry is a valid Nexus key; a
two-part first key yields the Nexus URL for site Nexus and the
unrecognized-site diagnostic otherwise. -/
theorem guess_url_fallback_first_entry (bi : List (String × RemoteEntry)) (info : ModRec)
    (h : lookup_meta bi info.UniqueID = none) :
    (info.UpdateKeys = none → guess_url bi info = .noUrl (.missingUpdateKey info.Name))
    ∧ (info.UpdateKeys = some [] → guess_url bi info = .noUrl (.missingUpdateKey info.Name))
    ∧ (∀ key rest site index, info.UpdateKeys = some (key :: rest) →
        split_colon key = [site, index] →
        ((site = (("Nexus")) → guess_url bi info
            = .found ((("https://www.nexusmods.com/stardewvalley/mods/")) ++ index))
         ∧ (site ≠ (("Nexus")) →
            guess_url bi info = .noUrl (.unrecognizedUpdateKey info.Name key))))
    ∧ (∀ key rest, info.UpdateKeys = some (key :: rest) →
        (split_colon key).length ≠ 2 →
        guess_url bi info = .noUrl (.invalidUpdateKey info.Name key)) := by
  refine ⟨?_, ?_, ?_, ?_⟩
  · intro hk
    simp [guess_url, h, hk]
  · intro hk
    simp [guess_url, h, hk]
  · intro key rest site index hk hsplit
    constructor
    · intro hsite
      subst hsite
      simp [guess_url, h, hk, hsplit]
    · intro hsite
      have hb : (site == (("Nexus"))) = false := by
        rcases hbeq : site == (("Nexus"))
        · rfl
        · exact absurd (eq_of_beq hbeq) hsite
      simp [guess_url, h, hk, hsplit, hb]
  · intro key rest hk hlen
    rcases hsp : split_colon key with _ | ⟨a, _ | ⟨b2, _ | _⟩⟩
    · simp [guess_url, h, hk, hsp]
    · simp [guess_url, h, hk, hsp]
    · exact absurd (by rw [hsp]; rfl) hlen
    · simp [guess_url, h, hk, hsp]

/-- Witness for C4: the spec's own fallback example, a sole Nexus:1234
update key, resolves to the Nexus URL. -/
theorem guess_url_fallback_first_entry_witness :
    guess_url [] ⟨("W"), ("w.id"), ("1.0"), some [("Nexus:1234")]⟩
      = .found (("https://www.nexusmods.com/stardewvalley/mods/1234")) :=
  ((guess_url_fallback_first_entry [] ⟨("W"), ("w.id"), ("1.0"), some [("Nexus:1234")]⟩
      rfl).2.2.1 ("Nexus:1234") [] ("Nexus") ("1234") rfl rfl).1 rfl

/-- Counterexample to C4 as stated: with no remote entry and
UpdateKeys = [Foo, Nexus:1], the claim predicts the Nexus URL derived from
the first entry containing a colon, but the code takes UpdateKeys[0],
fails to unpack "Foo" around a colon, logs the malformed-key diagnostic
and returns no URL. -/
theorem guess_url_first_key_counterexample :
    guess_url [] ⟨("M"), ("m.id"), ("1.0"), some [("Foo"), ("Nexus:1")]⟩
      = .noUrl (.invalidUpdateKey ("M") ("Foo"))
    ∧ guess_url [] ⟨("M"), ("m.id"), ("1.0"), some [("Foo"), ("Nexus:1")]⟩
      ≠ .found (("https://www.nexusmods.com/stardewvalley/mods/1")) :=
  ⟨rfl, fun h => nomatch h⟩
